import Mathlib

/-!
Verification development for the scan-processing pipeline repository.

The Python sources under backend/ are shallowly embedded: pure string and
list manipulation is translated directly, file-system and network effects
are passed in as explicit oracle parameters, and numeric image metrics
(floats in the source) are modelled as rationals, since the classifier
only compares and adds them.
-/

namespace SDProj

/-! ### Python string primitives used throughout the sources -/

/-- Python str.lower restricted to the ASCII data appearing in the repo. -/
def strLower (s : String) : String := String.mk (s.toList.map Char.toLower)

/-- Python str.strip with the default whitespace set. -/
def pyStrip (s : String) : String :=
  String.mk (((s.toList.dropWhile Char.isWhitespace).reverse.dropWhile
    Char.isWhitespace).reverse)

/-- Decides whether the first character list occurs as a contiguous block of
the second, mirroring the Python substring test with the in operator. -/
def listInfix : List Char → List Char → Bool
  | n, [] => n.isEmpty
  | n, c :: t => n.isPrefixOf (c :: t) || listInfix n t

/-- Python substring containment: needle in hay. -/
def strContains (hay needle : String) : Bool := listInfix needle.toList hay.toList

/-- Index of the last dot of a name when pathlib treats it as starting an
extension: it must not be the first or the last character. -/
def extDotIdx (name : String) : Option Nat :=
  let l := name.toList
  match (l.reverse.findIdx? (fun c => c = '.')) with
  | none => none
  | some j =>
      let i := l.length - 1 - j
      if 0 < i ∧ i < l.length - 1 then some i else none

/-- pathlib PurePath.stem of a bare file name. -/
def pyStem (name : String) : String :=
  match extDotIdx name with
  | some i => String.mk (name.toList.take i)
  | none => name

/-- pathlib PurePath.suffix of a bare file name. -/
def pySuffix (name : String) : String :=
  match extDotIdx name with
  | some i => String.mk (name.toList.drop i)
  | none => ""

/-- Python str.find for a single character: first index, or -1. -/
def pyFind (s : String) (c : Char) : Int :=
  match s.toList.findIdx? (fun x => x = c) with
  | some i => (i : Int)
  | none => -1

/-- Python str.rfind for a single character: last index, or -1. -/
def pyRfind (s : String) (c : Char) : Int :=
  match s.toList.reverse.findIdx? (fun x => x = c) with
  | some j => (s.toList.length - 1 - j : Int)
  | none => -1

/-- Python slice s[a:b] for 0 <= a <= b (the only use sites guarantee it). -/
def pySlice (s : String) (a b : Int) : String :=
  String.mk ((s.toList.drop a.toNat).take (b - a).toNat)

/-- Python str.rstrip with the two-character set AB: removes every trailing
character that is A or B. -/
def rstripAB (s : String) : String :=
  String.mk ((s.toList.reverse.dropWhile (fun c => c = 'A' ∨ c = 'B')).reverse)

/-- Python int applied to a non-empty decimal digit string. -/
def strToNat (s : String) : Nat :=
  s.toList.foldl (fun n c => 10 * n + (c.toNat - 48)) 0

/-- Lexicographic comparison of character lists by code point. -/
def charListLt : List Char → List Char → Bool
  | [], [] => false
  | [], _ :: _ => true
  | _ :: _, [] => false
  | a :: as, b :: bs =>
      if a.toNat < b.toNat then true
      else if b.toNat < a.toNat then false
      else charListLt as bs

/-- Python string comparison: lexicographic by code point. -/
def pyStrLt (a b : String) : Bool := charListLt a.toList b.toList

/-! ### table_generator.py : issue flags (lines 16-50) -/

/-- Quality-degradation phrases checked by extract_issue_flags. -/
def quality_issues : List String :=
  ["faint text", "faded text", "unclear text", "blurry text",
   "not able to read", "cannot read", "unreadable", "illegible",
   "partially visible", "hard to read", "difficult to read",
   "poor quality", "damaged", "worn", "scratched"]

/-- Absence-of-text phrases checked by extract_issue_flags. -/
def no_text_issues : List String :=
  ["no text", "no other text", "blank", "empty",
   "nothing visible", "no content"]

/-- table_generator.extract_issue_flags: each category loop appends its flag
at most once (the loop breaks on first match), which is the any test. -/
def extract_issue_flags (extraction_notes : String) : List String :=
  if extraction_notes = "" then []
  else
    (if quality_issues.any (fun p => strContains (strLower extraction_notes) p)
      then ["quality_issue"] else []) ++
    (if no_text_issues.any (fun p => strContains (strLower extraction_notes) p)
      then ["no_text"] else [])

/-! ### classify_rename.py : metrics and the back-image classifier -/

/-- Classification metrics computed by analyze_image_characteristics
(lines 26-82).  The source stores floats; the classifier only compares and
adds them, so they are modelled as rationals.  The histogram peak position
is an integer index from np.argmax. -/
structure Metrics where
  brightness : ℚ
  whiteness_ratio : ℚ
  edge_density : ℚ
  std_dev : ℚ
  hist_peak_position : ℤ
  hist_peak_value : ℚ
  file_size_mb : ℚ
deriving Repr, DecidableEq

/-- The empirically chosen edge-density target of line 115. -/
def optimal_edge_density : ℚ := 5 / 100

/-- classify_back_image (lines 85-148).  A failed analysis returns the empty
dictionary in the source, modelled as none.  The reasoning string built for
the success path interpolates rounded floats; only its failure-branch text is
ever inspected by the claims, so the success text keeps just the winner name. -/
def classify_back_image (metrics1 metrics2 : Option Metrics)
    (filename1 filename2 : String) : Bool × String :=
  match metrics1, metrics2 with
  | some m1, some m2 =>
      let s : ℚ × ℚ :=
        if m1.brightness > m2.brightness then (2, 0) else (0, 2)
      let s : ℚ × ℚ :=
        if m1.whiteness_ratio > m2.whiteness_ratio
          then (s.1 + 3, s.2) else (s.1, s.2 + 3)
      let edge_diff1 := |m1.edge_density - optimal_edge_density|
      let edge_diff2 := |m2.edge_density - optimal_edge_density|
      let s : ℚ × ℚ :=
        if edge_diff1 < edge_diff2 then (s.1 + 1, s.2) else (s.1, s.2 + 1)
      let s : ℚ × ℚ :=
        if m1.hist_peak_position > m2.hist_peak_position
          then (s.1 + 1, s.2) else (s.1, s.2 + 1)
      let s : ℚ × ℚ :=
        if m1.file_size_mb < m2.file_size_mb
          then (s.1 + 1 / 2, s.2) else (s.1, s.2 + 1 / 2)
      let is_first_back := s.1 > s.2
      let winner := if is_first_back then filename1 else filename2
      (is_first_back, "Classified " ++ winner ++ " as back")
  | _, _ => (false, "Could not analyze one or both images")

/-- The physical file chosen as back by process_directory lines 184-187. -/
def back_filename (metrics1 metrics2 : Option Metrics)
    (filename1 filename2 : String) : String :=
  if (classify_back_image metrics1 metrics2 filename1 filename2).1
    then filename1 else filename2

/-! ### classify_rename.py : process_directory and the batch loop -/

/-- A unit directory: its name and the file names it currently holds.
Every listed entry is a regular file (the source is_file test). -/
structure UnitDir where
  name : String
  files : List String
deriving Repr, DecidableEq

/-- The image extensions recognised across the repository. -/
def image_extensions : List String :=
  [".jpg", ".jpeg", ".png", ".tiff", ".tif", ".bmp"]

/-- The image files of a unit directory (process_directory lines 159-162). -/
def unitImages (d : UnitDir) : List String :=
  d.files.filter (fun f => image_extensions.contains (strLower (pySuffix f)))

/-- The images of a two-image unit sorted by name (line 171); other lengths
are passed through, the caller only inspects their length. -/
def sortedImages (d : UnitDir) : List String :=
  match unitImages d with
  | [a, b] => if pyStrLt b a then [b, a] else [a, b]
  | l => l

/-- A file-system operation attempted inside the rename block. -/
inductive FsOp where
  | unlink (name : String)
  | rename (oldName newName : String)
deriving Repr, DecidableEq

/-- Effect of a successful operation on the directory contents. -/
def applyOp (files : List String) : FsOp → List String
  | .unlink n => files.erase n
  | .rename o n => files.map (fun f => if f = o then n else f)

/-- One file of the try block of process_directory lines 215-224: if the
name changes, unlink an existing target then rename.  The oracle osError
gives the exception message an operation raises, if any; a raising
operation aborts the step. -/
def renameOne (files : List String) (orig new : String)
    (osError : FsOp → Option String) : List String × Option String :=
  if orig ≠ new then
    if files.contains new then
      match osError (.unlink new) with
      | some e => (files, some e)
      | none =>
          match osError (.rename orig new) with
          | some e => (applyOp files (.unlink new), some e)
          | none => (applyOp (applyOp files (.unlink new)) (.rename orig new), none)
    else
      match osError (.rename orig new) with
      | some e => (files, some e)
      | none => (applyOp files (.rename orig new), none)
  else (files, none)

/-- The whole try block: the front file first, then the back file; an
exception in the front step skips the back step. -/
def renamePhase (files0 : List String)
    (front_orig front_new back_orig back_new : String)
    (osError : FsOp → Option String) : List String × Option String :=
  match renameOne files0 front_orig front_new osError with
  | (files1, some e) => (files1, some e)
  | (files1, none) => renameOne files1 back_orig back_new osError

/-- Per-unit result dictionary of process_directory.  The rounded metrics
echoed at lines 207-210 are display only and elided. -/
structure DirResult where
  status : String
  message : Option String := none
  directory : String := ""
  front_original : String := ""
  back_original : String := ""
  front_new : String := ""
  back_new : String := ""
  reasoning : String := ""
  renamed : Option Bool := none
deriving Repr, DecidableEq

/-- process_directory (lines 151-237).  analyze stands for
analyze_image_characteristics; osError for the OS behaviour of the renames.
Returns the result dictionary and the directory contents afterwards. -/
def process_directory (d : UnitDir) (analyze : String → Option Metrics)
    (osError : FsOp → Option String) (dry_run : Bool) :
    DirResult × List String :=
  match sortedImages d with
  | [img1, img2] =>
      let metrics1 := analyze img1
      let metrics2 := analyze img2
      let cls := classify_back_image metrics1 metrics2 img1 img2
      let is_first_back := cls.1
      let reasoning := cls.2
      let back_img := if is_first_back then img1 else img2
      let front_img := if is_first_back then img2 else img1
      let front_stem := rstripAB (pyStem front_img)
      let back_stem := rstripAB (pyStem back_img)
      let front_new_name := front_stem ++ "A" ++ pySuffix front_img
      let back_new_name := back_stem ++ "B" ++ pySuffix back_img
      let base : DirResult :=
        { status := "success"
          directory := d.name
          front_original := front_img
          back_original := back_img
          front_new := front_new_name
          back_new := back_new_name
          reasoning := reasoning }
      if dry_run then ({ base with renamed := some false }, d.files)
      else
        match renamePhase d.files front_img front_new_name
            back_img back_new_name osError with
        | (files1, none) => ({ base with renamed := some true }, files1)
        | (files1, some e) =>
            ({ base with
                status := "error"
                message := some ("Failed to rename files: " ++ e) }, files1)
  | l =>
      ({ status := "error"
         message := some ("Expected 2 images, found " ++ toString l.length
           ++ " in " ++ d.name) }, d.files)

/-- Batch summary of process_all_directories. -/
structure BatchResult where
  status : String
  message : Option String := none
  total_directories : Nat := 0
  successful : Nat := 0
  failed : Nat := 0
  results : List DirResult := []
  dry_run : Bool := false
deriving Repr, DecidableEq

/-- process_all_directories (lines 240-286).  The oracles are keyed by the
directory name so distinct units can behave differently. -/
def process_all_directories (dirs : List UnitDir)
    (analyze : String → String → Option Metrics)
    (osError : String → FsOp → Option String) (dry_run : Bool) : BatchResult :=
  let directories_to_process := dirs.filter (fun d => (unitImages d).length = 2)
  if directories_to_process.isEmpty then
    { status := "error"
      message := some "No directories with exactly 2 images found" }
  else
    let sorted := directories_to_process.insertionSort
      (fun a b => pyStrLt b.name a.name = false)
    let results := sorted.map
      (fun d => (process_directory d (analyze d.name) (osError d.name) dry_run).1)
    { status := "success"
      total_directories := sorted.length
      successful := results.countP (fun r => r.status = "success")
      failed := results.countP (fun r => ¬ r.status = "success")
      results := results
      dry_run := dry_run }

/-! ### text_extractor.py : reply parsing and the extraction batch -/

/-- The metadata block of an extraction record.  raw_extraction is only
present on the fallback records synthesized at lines 134-144 and 147-157. -/
structure ExtractionMeta where
  raw_extraction : Option String := none
  handwritten_notes : List String := []
  printed_labels : List String := []
  addresses : List String := []
  other_markings : List String := []
deriving Repr, DecidableEq

/-- The provenance block stamped at lines 160-165. -/
structure ProcessingInfo where
  image_path : String := ""
  directory : String := ""
  processed_at : String := ""
  model_used : String := ""
deriving Repr, DecidableEq

/-- The structured record built from a recognition reply. -/
structure ParsedData where
  id_number : String := ""
  metadata : ExtractionMeta := {}
  extraction_notes : String := ""
  processing_info : Option ProcessingInfo := none
deriving Repr, DecidableEq

/-- The value returned by extract_text_from_image: either a parsed or
synthesized record, or the error dictionary of lines 174-179. -/
inductive ExtractionOutcome where
  | ok (d : ParsedData)
  | err (msg image_path directory processed_at : String)
deriving Repr, DecidableEq

/-- The fallback record shared by both failure branches of the reply
parser: the raw reply is kept under the raw_extraction key of the metadata,
all four category lists are empty. -/
def fallbackRecord (idSentinel note extracted_content : String) : ParsedData :=
  { id_number := idSentinel
    metadata := { raw_extraction := some extracted_content }
    extraction_notes := note }

/-- Reply handling of extract_text_from_image lines 125-157: locate the
first opening and last closing brace, parse the slice between them, and on
a missing object or a parse failure synthesize a fallback record.  jsonParse
stands for json.loads followed by the dictionary reads downstream; none is
a JSONDecodeError. -/
def parse_reply_content (extracted_content : String)
    (jsonParse : String → Option ParsedData) : ParsedData :=
  let json_start := pyFind extracted_content '{'
  let json_end := pyRfind extracted_content '}' + 1
  if json_start ≠ -1 ∧ json_end > json_start then
    match jsonParse (pySlice extracted_content json_start json_end) with
    | some parsed_data => parsed_data
    | none =>
        fallbackRecord "parsing_error"
          "JSON parsing failed, raw extraction included" extracted_content
  else
    fallbackRecord "not_found"
      "Could not parse as structured JSON, raw text included" extracted_content

/-- extract_text_from_image (lines 47-179).  reply is the outcome of the
network call: error carries the exception message (a failed base64 encode is
the same shape with the message of line 56).  now is the wall clock. -/
def extract_text_from_image (reply : Except String String)
    (jsonParse : String → Option ParsedData)
    (image_path directory_name now : String) : ExtractionOutcome :=
  match reply with
  | .error e => .err e image_path directory_name now
  | .ok extracted_content =>
      let parsed_data := parse_reply_content extracted_content jsonParse
      .ok { parsed_data with
              processing_info := some
                { image_path := image_path
                  directory := directory_name
                  processed_at := now
                  model_used := "gpt-4o" } }

/-- Per-unit entry of the results mapping of process_all_back_images. -/
structure BackImageResult where
  status : String
  json_file : Option String := none
  id_extracted : Option String := none
  error : Option String := none
deriving Repr, DecidableEq

/-- Body of the loop of process_all_back_images lines 219-255 for one back
image: on a record the JSON document is written next to the image (saveFail
is the possible write exception), on an error dictionary the unit is marked
failed and nothing is written.  The second component is the document that
now exists on disk for the table stage, if any. -/
def process_one_back_image (image_path directory_name : String)
    (reply : Except String String) (jsonParse : String → Option ParsedData)
    (saveFail : Option String) (now : String) :
    BackImageResult × Option (String × ParsedData) :=
  match extract_text_from_image reply jsonParse image_path directory_name now with
  | .ok extraction_result =>
      match saveFail with
      | none =>
          ({ status := "success"
             json_file := some (directory_name ++ ".json")
             id_extracted := some extraction_result.id_number },
           some (directory_name, extraction_result))
      | some e =>
          ({ status := "failed"
             error := some ("Failed to save JSON: " ++ e) }, none)
  | .err e _ _ _ =>
      ({ status := "failed", error := some e }, none)

/-- Batch summary of process_all_back_images, with the documents on disk. -/
structure ExtractionBatch where
  status : String
  error : Option String := none
  total_images : Nat := 0
  processed : Nat := 0
  failed : Nat := 0
  results : List (String × BackImageResult) := []
  savedDocs : List (String × ParsedData) := []
deriving Repr, DecidableEq

/-- process_all_back_images (lines 201-263).  back_images pairs each image
path with its directory name; the oracles are keyed by directory name. -/
def process_all_back_images (back_images : List (String × String))
    (replies : String → Except String String)
    (jsonParse : String → Option ParsedData)
    (saveFail : String → Option String) (now : String) : ExtractionBatch :=
  if back_images.isEmpty then
    { status := "error"
      error := some "No back images (ending with \x27B\x27) found" }
  else
    let outs := back_images.map (fun u =>
      (u.2, process_one_back_image u.1 u.2 (replies u.2) jsonParse
        (saveFail u.2) now))
    { status := "completed"
      total_images := back_images.length
      processed := outs.countP (fun o => o.2.1.status = "success")
      failed := outs.countP (fun o => ¬ o.2.1.status = "success")
      results := outs.map (fun o => (o.1, o.2.1))
      savedDocs := outs.filterMap (fun o => o.2.2) }

/-! ### table_generator.py : rows, duplicate detection, statistics -/

/-- Content of one per-unit JSON document as read back by the table stage.
Keys may be absent, hence the options; the error key marks records written
for failed extractions. -/
structure UnitDoc where
  id_number : Option String := none
  extraction_notes : Option String := none
  processed_at : Option String := none
  model_used : Option String := none
  handwritten_notes : Option (List String) := none
  printed_labels : Option (List String) := none
  addresses : Option (List String) := none
  other_markings : Option (List String) := none
  front_image : Option String := none
  back_image : Option String := none
  error : Option String := none
deriving Repr, DecidableEq

/-- One summary row (generate_data_table lines 105-121). -/
structure Row where
  directory : String := ""
  id_number : String := ""
  front_image_path : String := ""
  back_image_path : String := ""
  extraction_notes : String := ""
  processed_at : String := ""
  model_used : String := ""
  handwritten_notes : String := ""
  printed_labels : String := ""
  addresses : String := ""
  other_markings : String := ""
  has_error : Bool := false
  error_message : String := ""
  flags : List String := []
deriving Repr, DecidableEq

/-- Row built from a successfully loaded document (lines 105-125). -/
def buildRow (directory : String) (data : UnitDoc) : Row :=
  { directory := directory
    id_number := data.id_number.getD ""
    front_image_path := data.front_image.getD ""
    back_image_path := data.back_image.getD ""
    extraction_notes := data.extraction_notes.getD ""
    processed_at := data.processed_at.getD ""
    model_used := data.model_used.getD ""
    handwritten_notes := String.intercalate ", " (data.handwritten_notes.getD [])
    printed_labels := String.intercalate ", " (data.printed_labels.getD [])
    addresses := String.intercalate ", " (data.addresses.getD [])
    other_markings := String.intercalate ", " (data.other_markings.getD [])
    has_error := data.error.isSome
    error_message := data.error.getD ""
    flags := extract_issue_flags (data.extraction_notes.getD "") }

/-- Synthetic row for a document that failed to load (lines 143-158). -/
def errorRow (directory e : String) : Row :=
  { directory := directory
    id_number := "ERROR"
    extraction_notes := "Failed to process JSON: " ++ e
    has_error := true
    error_message := e
    flags := ["processing_error"] }

/-- The identifier validity test of find_duplicate_ids line 60: stripped,
non-empty and not a sentinel. -/
def isValidId (s : String) : Bool :=
  ¬ s = "" && ¬ (["not_found", "parsing_error", ""].contains s)

/-- The valid (stripped identifier, row index) pairs accumulated by
find_duplicate_ids lines 56-61. -/
def dupPairs (rows : List Row) : List (String × Nat) :=
  rows.enum.filterMap (fun p =>
    if isValidId (pyStrip p.2.id_number)
      then some (pyStrip p.2.id_number, p.1) else none)

/-- Keys in first-occurrence order, as iterating a Python dict yields. -/
def dedupFirst : List String → List String
  | [] => []
  | k :: rest => k :: (dedupFirst rest).filter (fun x => ¬ x = k)

/-- The row indices grouped under one identifier key. -/
def idxsOf (pairs : List (String × Nat)) (k : String) : List Nat :=
  pairs.filterMap (fun p => if p.1 = k then some p.2 else none)

/-- find_duplicate_ids (lines 52-64): group the valid pairs by identifier
and keep the groups of size at least two. -/
def find_duplicate_ids (rows : List Row) : List (String × List Nat) :=
  ((dedupFirst ((dupPairs rows).map Prod.fst)).map (fun k =>
    (k, idxsOf (dupPairs rows) k))).filter (fun g => 1 < g.2.length)

/-- All row indices flagged by the second pass of lines 167-171. -/
def dupIndices (rows : List Row) : List Nat :=
  (find_duplicate_ids rows).map Prod.snd |>.flatten

/-- The in-place flag append of line 169-170. -/
def addDupFlag (row : Row) : Row :=
  if "duplicate_id" ∈ row.flags then row
  else { row with flags := row.flags ++ ["duplicate_id"] }

/-- Aggregate statistics of generate_data_table. -/
structure TableStats where
  total_items : Nat := 0
  duplicates : Nat := 0
  quality_issues : Nat := 0
  processing_errors : Nat := 0
  missing_ids : Nat := 0
deriving Repr, DecidableEq

/-- The rows of generate_data_table before the duplicate pass: one per
per-unit document, in input order (lines 86-161).  Each item is a directory
name with either its parsed document or the load exception message. -/
def baseRows (items : List (String × Except String UnitDoc)) : List Row :=
  items.map (fun it =>
    match it.2 with
    | .ok data => buildRow it.1 data
    | .error e => errorRow it.1 e)

/-- The rows after the duplicate-flag pass of lines 163-171. -/
def finalRows (items : List (String × Except String UnitDoc)) : List Row :=
  (baseRows items).enum.map (fun p =>
    if p.1 ∈ dupIndices (baseRows items) then addDupFlag p.2 else p.2)

/-- The statistics of generate_data_table.  The source accumulates them
while building the rows and sums the duplicate groups afterwards; the
accumulations are represented directly as counts over the built rows. -/
def tableStats (items : List (String × Except String UnitDoc)) : TableStats :=
  { total_items := (baseRows items).length
    duplicates := (find_duplicate_ids (baseRows items)).foldl
      (fun a g => a + g.2.length) 0
    quality_issues := (baseRows items).countP (fun r => "quality_issue" ∈ r.flags)
    processing_errors := (baseRows items).countP (fun r => r.has_error)
    missing_ids := (baseRows items).countP
      (fun r => ["not_found", "parsing_error", ""].contains r.id_number) }

/-- generate_data_table (lines 66-173). -/
def generate_data_table (items : List (String × Except String UnitDoc)) :
    List Row × TableStats :=
  (finalRows items, tableStats items)

/-! ### scan_formatting.py : pair directories and their numeric names -/

/-- Accumulating scanner behind the digit-run search: cur holds the digits
of the run in progress, reversed. -/
def digitRunsGo (cur : List Char) : List Char → List String
  | [] => if cur.isEmpty then [] else [String.mk cur.reverse]
  | c :: t =>
      if c.isDigit then digitRunsGo (c :: cur) t
      else if cur.isEmpty then digitRunsGo [] t
      else String.mk cur.reverse :: digitRunsGo [] t

/-- re.findall of one-or-more digits over a string: the maximal runs of
consecutive decimal digits, left to right. -/
def findallDigits (s : String) : List String := digitRunsGo [] s.toList

/-- Decimal rendering padded with zeros to width three, the Python 03d
format specifier (wider values are printed unchanged). -/
def pad3 (n : Nat) : String :=
  let t := toString n
  if t.length < 3 then String.mk (List.replicate (3 - t.length) '0') ++ t else t

/-- extract_number_for_directory (lines 146-156). -/
def extract_number_for_directory (filename : String) : String :=
  match findallDigits filename with
  | [] => pyStem filename
  | n :: _ => pad3 (strToNat n)

/-- create_image_pairs (lines 114-143) on the sorted image names: each unit
is the directory name derived from the first image plus the two images; a
trailing odd image is skipped. -/
def create_image_pairs : List String → List (String × String × String)
  | a :: b :: t => (extract_number_for_directory a, a, b) :: create_image_pairs t
  | _ => []

/-! ### pipeline_integration.py : session metadata and the stage sequence -/

/-- Session metadata document (load_or_create_metadata lines 83-92).  The
files_info and stats mappings and timestamps carry no claim content and are
elided; table_data presence is tracked as a flag. -/
structure SessionMeta where
  status : String := "created"
  current_step : String := "waiting_upload"
  steps_completed : List String := []
  error : Option String := none
  table_data_set : Bool := false
  final_zip : Option String := none
deriving Repr, DecidableEq

/-- update_status (lines 100-106): sets status and the current step and
persists the metadata. -/
def update_status (m : SessionMeta) (status step : String) : SessionMeta :=
  { m with status := status, current_step := step }

/-- Result of the subprocess.run call made by a stage helper: it completed
with a return code, or it (or anything else in the try block) raised. -/
inductive SubprocessOutcome where
  | completed (returncode : Int)
  | raised (msg : String)
deriving Repr, DecidableEq

/-- _run_classify_rename (lines 278-300): a missing script is only logged,
a nonzero return code of the classification script is only logged, and
every exception in the try block is caught and logged; the helper always
returns its input directory. -/
def run_classify_rename_helper (script_exists : Bool)
    (outcome : SubprocessOutcome) (input_dir : String) : String :=
  if script_exists = false then input_dir
  else
    match outcome with
    | .completed _ => input_dir
    | .raised _ => input_dir

/-- _run_text_extraction (lines 302-324): identical structure, a nonzero
return code of the extraction script is only logged at line 319 and every
exception is caught at line 322; the helper always returns its input
directory, so a failing text extraction never escapes as an exception. -/
def run_text_extraction_helper (script_exists : Bool)
    (outcome : SubprocessOutcome) (input_dir : String) : String :=
  if script_exists = false then input_dir
  else
    match outcome with
    | .completed _ => input_dir
    | .raised _ => input_dir

/-- Environment of one pipeline run: the effects of the statements of
run_processing_pipeline that can actually raise (saving the upload, the
scan-formatting stage that re-raises a failed zip processing at line 268)
and the subprocess outcomes swallowed by the two stage helpers.
_generate_data_table (lines 326-350) catches every exception and returns a
dictionary, so it has no failure effect. -/
structure PipelineRunEnv where
  save_file : Except String Unit := .ok ()
  scan_formatting : Except String Unit := .ok ()
  classify_script_exists : Bool := true
  classify_outcome : SubprocessOutcome := .completed 0
  extraction_script_exists : Bool := true
  extraction_outcome : SubprocessOutcome := .completed 0

/-- The except branch of lines 251-256: transition to error and record the
message. -/
def failPipeline (m : SessionMeta) (e : String) : SessionMeta :=
  { update_status m "error" "processing_failed" with error := some e }

/-- Message of the AttributeError raised by line 154: the method called
there exists only as a dead nested def placed after the call site (lines
164-200) and never becomes an attribute of the processor object, so the
lookup fails on every run that reaches it.  The hex escapes render the
single quote marks of the CPython message. -/
def attributeErrorMsg : String :=
  "\x27CompletePipelineProcessor\x27 object has no attribute \x27_save_to_temp_database\x27"

/-- run_processing_pipeline (lines 108-256).  Returns the final metadata,
the list of stages whose body was entered (in order), and the success flag
of the returned dictionary.  The classify_rename and text_extraction
statements cannot raise (their helpers swallow every failure), so both
stage names are always appended once reached; generate_table likewise
always completes.  Line 154 then raises AttributeError unconditionally, so
the outer except of lines 251-256 ends every such run in status error; the
statements after line 154 (browser, statistics, review_ready transition)
are unreachable in the source. -/
def run_processing_pipeline (m : SessionMeta) (env : PipelineRunEnv) :
    SessionMeta × List String × Bool :=
  let m := update_status m "processing" "upload"
  match env.save_file with
  | .error e => (failPipeline m e, ["upload"], false)
  | .ok _ =>
  let m := update_status m "processing" "scan_formatting"
  match env.scan_formatting with
  | .error e => (failPipeline m e, ["upload", "scan_formatting"], false)
  | .ok _ =>
  let m := { m with steps_completed := m.steps_completed ++ ["scan_formatting"] }
  let m := update_status m "processing" "classify_rename"
  let classified_dir := run_classify_rename_helper env.classify_script_exists
    env.classify_outcome "processed_images"
  let m := { m with steps_completed := m.steps_completed ++ ["classify_rename"] }
  let m := update_status m "processing" "text_extraction"
  let _final_dir := run_text_extraction_helper env.extraction_script_exists
    env.extraction_outcome classified_dir
  let m := { m with steps_completed := m.steps_completed ++ ["text_extraction"] }
  let m := update_status m "processing" "generate_table"
  let m := update_status m "processing" "generate_table"
  let m := { m with
              steps_completed := m.steps_completed ++ ["generate_table"]
              table_data_set := true }
  (failPipeline m attributeErrorMsg,
   ["upload", "scan_formatting", "classify_rename", "text_extraction",
    "generate_table", "save_to_temp_database"], false)

/-- Fresh metadata of a new session. -/
def initMeta : SessionMeta := {}

/-- create_final_zip (lines 499-518).  zipWrite is the effect of walking
the processed directory and writing the archive; ts the timestamp used in
the file name. -/
def create_final_zip (m : SessionMeta) (zipWrite : Except String Unit)
    (ts : String) : Except String SessionMeta :=
  if ¬ m.status = "review_ready" then
    .error "Cannot create ZIP - processing not complete or already finalized"
  else
    match zipWrite with
    | .error e => .error e
    | .ok _ =>
        .ok { update_status m "completed" "zip_created" with
                final_zip := some ("processed_results_" ++ ts ++ ".zip") }

/-- download_pipeline_results (lines 608-624): delegates to create_final_zip
and converts an exception into an HTTP 500 carrying its message. -/
def download_pipeline_results (m : SessionMeta) (zipWrite : Except String Unit)
    (ts : String) : Except String SessionMeta :=
  match create_final_zip m zipWrite ts with
  | .ok m1 => .ok m1
  | .error e => .error e

/-! ### Claim-side definitions

The following definitions restate parts of the specification in isolation
from the source translation above, so that the claims can compare the two. -/

/-- Brightness comparison points: 2 to the brighter image (spec 4.1). -/
def brightness_points (m1 m2 : Metrics) : ℚ × ℚ :=
  if m1.brightness > m2.brightness then (2, 0) else (0, 2)

/-- White-pixel-ratio comparison points: 3 to the whiter image. -/
def whiteness_points (m1 m2 : Metrics) : ℚ × ℚ :=
  if m1.whiteness_ratio > m2.whiteness_ratio then (3, 0) else (0, 3)

/-- Edge-density points: 1 to the image closer to the target density. -/
def edge_points (m1 m2 : Metrics) : ℚ × ℚ :=
  if |m1.edge_density - optimal_edge_density|
      < |m2.edge_density - optimal_edge_density| then (1, 0) else (0, 1)

/-- Histogram-peak points: 1 to the image with the higher peak position. -/
def peak_points (m1 m2 : Metrics) : ℚ × ℚ :=
  if m1.hist_peak_position > m2.hist_peak_position then (1, 0) else (0, 1)

/-- File-size points: one half to the smaller file. -/
def size_points (m1 m2 : Metrics) : ℚ × ℚ :=
  if m1.file_size_mb < m2.file_size_mb then (1 / 2, 0) else (0, 1 / 2)

/-- Total score of each image over the five comparisons. -/
def scorePair (m1 m2 : Metrics) : ℚ × ℚ :=
  ((brightness_points m1 m2).1 + (whiteness_points m1 m2).1
     + (edge_points m1 m2).1 + (peak_points m1 m2).1 + (size_points m1 m2).1,
   (brightness_points m1 m2).2 + (whiteness_points m1 m2).2
     + (edge_points m1 m2).2 + (peak_points m1 m2).2 + (size_points m1 m2).2)

/-- The five comparisons of the classifier are tie-prone: all of them must
be strict for the outcome to be symmetric in its arguments. -/
def StrictMetrics (m1 m2 : Metrics) : Prop :=
  ¬ m1.brightness = m2.brightness ∧
  ¬ m1.whiteness_ratio = m2.whiteness_ratio ∧
  ¬ |m1.edge_density - optimal_edge_density|
      = |m2.edge_density - optimal_edge_density| ∧
  ¬ m1.hist_peak_position = m2.hist_peak_position ∧
  ¬ m1.file_size_mb = m2.file_size_mb

/-- The first maximal digit run of a string, stated directly rather than
through the findall scanner. -/
def firstDigitRun (s : String) : List Char :=
  (s.toList.dropWhile (fun c => ¬ c.isDigit)).takeWhile Char.isDigit

/-- Whether a string contains a decimal digit. -/
def hasDigit (s : String) : Bool := s.toList.any Char.isDigit

/-! ### Helper lemmas -/

theorem classify_eq_scorePair (m1 m2 : Metrics) (f1 f2 : String) :
    (classify_back_image (some m1) (some m2) f1 f2).1 = true ↔
      (scorePair m1 m2).2 < (scorePair m1 m2).1 := by
  simp only [classify_back_image, scorePair, brightness_points,
    whiteness_points, edge_points, peak_points, size_points]
  split_ifs <;> simp

theorem scorePair_ne (m1 m2 : Metrics) :
    ¬ (scorePair m1 m2).1 = (scorePair m1 m2).2 := by
  simp only [scorePair, brightness_points, whiteness_points, edge_points,
    peak_points, size_points]
  split_ifs <;> norm_num

theorem scorePair_swap (m1 m2 : Metrics) (h : StrictMetrics m1 m2) :
    scorePair m2 m1 = ((scorePair m1 m2).2, (scorePair m1 m2).1) := by
  obtain ⟨h1, h2, h3, h4, h5⟩ := h
  simp only [scorePair, brightness_points, whiteness_points, edge_points,
    peak_points, size_points]
  rcases lt_or_gt_of_ne h1 with h1 | h1 <;>
    rcases lt_or_gt_of_ne h2 with h2 | h2 <;>
    rcases lt_or_gt_of_ne h3 with h3 | h3 <;>
    rcases lt_or_gt_of_ne h4 with h4 | h4 <;>
    rcases lt_or_gt_of_ne h5 with h5 | h5 <;>
    simp [h1, h2, h3, h4, h5, h1.not_lt, h2.not_lt, h3.not_lt, h4.not_lt,
      h5.not_lt]

theorem back_filename_swap (m1 m2 : Metrics) (f1 f2 : String)
    (h : StrictMetrics m1 m2) :
    back_filename (some m2) (some m1) f2 f1
      = back_filename (some m1) (some m2) f1 f2 := by
  have hql := classify_eq_scorePair m1 m2 f1 f2
  have hqr := classify_eq_scorePair m2 m1 f2 f1
  rw [scorePair_swap m1 m2 h] at hqr
  simp only [back_filename]
  by_cases hlt : (scorePair m1 m2).2 < (scorePair m1 m2).1
  · rw [if_pos (hql.mpr hlt), if_neg (fun hc => (hqr.mp hc).not_lt hlt)]
  · have hgt : (scorePair m1 m2).1 < (scorePair m1 m2).2 :=
      lt_of_le_of_ne (not_lt.mp hlt) (scorePair_ne m1 m2)
    rw [if_pos (hqr.mpr hgt), if_neg (fun hc => hlt (hql.mp hc))]

theorem mem_dedupFirst (x : String) : ∀ (l : List String),
    x ∈ dedupFirst l ↔ x ∈ l
  | [] => by simp [dedupFirst]
  | k :: rest => by
      by_cases hx : x = k
      · subst hx; simp [dedupFirst]
      · simp [dedupFirst, List.mem_filter, hx, mem_dedupFirst x rest]

theorem mem_filterMap_ite {α β : Type} (f : α → β) (C : α → Prop)
    [DecidablePred C] (l : List α) (b : β) :
    b ∈ l.filterMap (fun a => if C a then some (f a) else none) ↔
      ∃ a ∈ l, C a ∧ f a = b := by
  rw [List.mem_filterMap]
  constructor
  · rintro ⟨a, ha, hfa⟩
    by_cases h : C a
    · rw [if_pos h] at hfa
      exact ⟨a, ha, h, Option.some.inj hfa⟩
    · rw [if_neg h] at hfa; cases hfa
  · rintro ⟨a, ha, hC, hfa⟩
    exact ⟨a, ha, by rw [if_pos hC, hfa]⟩

theorem length_filterMap_ite {α β : Type} (f : α → β) (C : α → Prop)
    [DecidablePred C] : ∀ (l : List α),
    (l.filterMap (fun a => if C a then some (f a) else none)).length
      = l.countP (fun a => decide (C a))
  | [] => by simp
  | a :: t => by
      by_cases h : C a <;>
        simp [List.filterMap_cons, h, List.countP_cons,
          length_filterMap_ite f C t]

theorem mem_idxsOf (pairs : List (String × Nat)) (k : String) (i : Nat) :
    i ∈ idxsOf pairs k ↔ (k, i) ∈ pairs := by
  unfold idxsOf
  rw [mem_filterMap_ite]
  constructor
  · rintro ⟨⟨a, b⟩, hp, hC, hf⟩
    simp only at hC hf
    rw [← hC, ← hf] at *
    exact hp
  · intro hp
    exact ⟨(k, i), hp, rfl, rfl⟩

theorem length_idxsOf (pairs : List (String × Nat)) (k : String) :
    (idxsOf pairs k).length = pairs.countP (fun p => decide (p.1 = k)) :=
  length_filterMap_ite Prod.snd (fun p => p.1 = k) pairs

theorem mem_dupPairs (rows : List Row) (k : String) (i : Nat) :
    (k, i) ∈ dupPairs rows ↔
      ∃ row, rows[i]? = some row ∧ pyStrip row.id_number = k ∧
        isValidId k = true := by
  unfold dupPairs
  rw [List.mem_filterMap]
  constructor
  · rintro ⟨p, hp, hf⟩
    by_cases h : isValidId (pyStrip p.2.id_number)
    · rw [if_pos h] at hf
      have hpair := Option.some.inj hf
      have hk : pyStrip p.2.id_number = k := congrArg Prod.fst hpair
      have hi : p.1 = i := congrArg Prod.snd hpair
      refine ⟨p.2, ?_, hk, hk ▸ h⟩
      rw [← hi]
      exact List.mem_enum_iff_getElem?.mp hp
    · rw [if_neg h] at hf; cases hf
  · rintro ⟨row, hrow, hstrip, hvalid⟩
    refine ⟨(i, row), List.mem_enum_iff_getElem?.mpr hrow, ?_⟩
    simp only
    rw [if_pos (by rw [hstrip]; exact hvalid), hstrip]

theorem countP_dupPairs (rows : List Row) (k : String)
    (hk : isValidId k = true) :
    (dupPairs rows).countP (fun p => decide (p.1 = k))
      = rows.countP (fun r => decide (pyStrip r.id_number = k)) := by
  unfold dupPairs
  rw [List.countP_filterMap]
  have hfun : (fun (p : Nat × Row) =>
      (Option.map (fun pr : String × Nat => decide (pr.1 = k))
        (if isValidId (pyStrip p.2.id_number)
          then some (pyStrip p.2.id_number, p.1) else none)).getD false)
      = (fun p : Nat × Row => decide (pyStrip p.2.id_number = k)) := by
    funext p
    by_cases h : isValidId (pyStrip p.2.id_number)
    · simp [h]
    · have hne : ¬ pyStrip p.2.id_number = k := fun he => h (he ▸ hk)
      simp [h, hne]
  rw [hfun]
  have h2 : (fun p : Nat × Row => decide (pyStrip p.2.id_number = k))
      = (fun r : Row => decide (pyStrip r.id_number = k)) ∘ Prod.snd := rfl
  rw [h2, ← List.countP_map, List.enum_map_snd]

theorem mem_find_duplicate_ids (rows : List Row) (k : String)
    (idxs : List Nat) :
    (k, idxs) ∈ find_duplicate_ids rows ↔
      k ∈ (dupPairs rows).map Prod.fst ∧
        idxs = idxsOf (dupPairs rows) k ∧ 1 < idxs.length := by
  unfold find_duplicate_ids
  rw [List.mem_filter, List.mem_map]
  constructor
  · rintro ⟨⟨k1, hk1, heq⟩, hlen⟩
    have hkk : k1 = k := congrArg Prod.fst heq
    have hii : idxsOf (dupPairs rows) k1 = idxs := congrArg Prod.snd heq
    subst hkk
    refine ⟨(mem_dedupFirst _ _).mp hk1, hii.symm, ?_⟩
    simpa using hlen
  · rintro ⟨hk, rfl, hlen⟩
    exact ⟨⟨k, (mem_dedupFirst _ _).mpr hk, rfl⟩, by simpa using hlen⟩

theorem mem_dupIndices_iff (rows : List Row) (i : Nat) :
    i ∈ dupIndices rows ↔
      ∃ row, rows[i]? = some row ∧
        isValidId (pyStrip row.id_number) = true ∧
        2 ≤ rows.countP
          (fun r => decide (pyStrip r.id_number = pyStrip row.id_number)) := by
  unfold dupIndices
  rw [List.mem_flatten]
  constructor
  · rintro ⟨l, hl, hil⟩
    rw [List.mem_map] at hl
    obtain ⟨⟨k, idxs⟩, hg, hsnd⟩ := hl
    rw [mem_find_duplicate_ids] at hg
    obtain ⟨hk, hidxs, hlen⟩ := hg
    simp only at hsnd
    rw [← hsnd, hidxs] at hil
    obtain ⟨row, hrow, hstrip, hvalid⟩ :=
      (mem_dupPairs rows k i).mp ((mem_idxsOf _ k i).mp hil)
    refine ⟨row, hrow, hstrip ▸ hvalid, ?_⟩
    rw [hstrip]
    have hle : 2 ≤ idxs.length := hlen
    rw [hidxs, length_idxsOf, countP_dupPairs rows k hvalid] at hle
    exact hle
  · rintro ⟨row, hrow, hvalid, hcount⟩
    have hpair : (pyStrip row.id_number, i) ∈ dupPairs rows :=
      (mem_dupPairs rows (pyStrip row.id_number) i).mpr ⟨row, hrow, rfl, hvalid⟩
    refine ⟨idxsOf (dupPairs rows) (pyStrip row.id_number), ?_,
      (mem_idxsOf _ _ i).mpr hpair⟩
    rw [List.mem_map]
    refine ⟨(pyStrip row.id_number, idxsOf (dupPairs rows) (pyStrip row.id_number)),
      ?_, rfl⟩
    rw [mem_find_duplicate_ids]
    refine ⟨List.mem_map.mpr ⟨_, hpair, rfl⟩, rfl, ?_⟩
    rw [length_idxsOf, countP_dupPairs rows _ hvalid]
    omega

theorem dup_not_mem_issue_flags (s : String) :
    "duplicate_id" ∉ extract_issue_flags s := by
  unfold extract_issue_flags
  split_ifs <;> decide

theorem dup_not_mem_baseRow (items : List (String × Except String UnitDoc))
    (i : Nat) (h : i < (baseRows items).length) :
    "duplicate_id" ∉ ((baseRows items).get ⟨i, h⟩).flags := by
  have hlen2 : i < items.length := by simpa [baseRows] using h
  unfold baseRows at *
  rw [List.get_eq_getElem, List.getElem_map]
  match (items[i]).2 with
  | .ok data =>
      simp only [buildRow]
      exact dup_not_mem_issue_flags _
  | .error e => simp [errorRow]

theorem addDupFlag_id (row : Row) :
    (addDupFlag row).id_number = row.id_number := by
  unfold addDupFlag
  split_ifs <;> rfl

theorem length_finalRows (items : List (String × Except String UnitDoc)) :
    (finalRows items).length = (baseRows items).length := by
  simp [finalRows]

theorem finalRows_get (items : List (String × Except String UnitDoc))
    (i : Nat) (h : i < (finalRows items).length) :
    (finalRows items).get ⟨i, h⟩ =
      (if i ∈ dupIndices (baseRows items)
        then addDupFlag ((baseRows items).get
          ⟨i, by rw [← length_finalRows items]; exact h⟩)
        else (baseRows items).get
          ⟨i, by rw [← length_finalRows items]; exact h⟩) := by
  simp only [finalRows, List.get_eq_getElem, List.getElem_map,
    List.getElem_enum]

theorem countP_finalRows_id (items : List (String × Except String UnitDoc))
    (v : String) :
    (finalRows items).countP (fun r => decide (pyStrip r.id_number = v))
      = (baseRows items).countP
          (fun r => decide (pyStrip r.id_number = v)) := by
  unfold finalRows
  rw [List.countP_map]
  have hfun : ((fun r : Row => decide (pyStrip r.id_number = v)) ∘
      (fun p : Nat × Row =>
        if p.1 ∈ dupIndices (baseRows items) then addDupFlag p.2 else p.2))
      = (fun p : Nat × Row => decide (pyStrip p.2.id_number = v)) := by
    funext p
    by_cases h : p.1 ∈ dupIndices (baseRows items) <;>
      first
        | (simp [h, Function.comp, addDupFlag]; split_ifs <;> rfl)
        | simp [h, Function.comp, addDupFlag]
  rw [hfun]
  have h2 : (fun p : Nat × Row => decide (pyStrip p.2.id_number = v))
      = (fun r : Row => decide (pyStrip r.id_number = v)) ∘ Prod.snd := rfl
  rw [h2, ← List.countP_map, List.enum_map_snd]

theorem renameOne_ok (files : List String) (orig new : String) :
    (renameOne files orig new (fun _ => none)).2 = none := by
  unfold renameOne
  split_ifs <;> rfl

theorem renameOne_fail (files : List String) (orig new e : String)
    (hne : ¬ orig = new) :
    (renameOne files orig new (fun _ => some e)).2 = some e := by
  unfold renameOne
  rw [if_pos hne]
  split_ifs <;> rfl

theorem renamePhase_ok (files0 : List String) (fo fn bo bn : String) :
    (renamePhase files0 fo fn bo bn (fun _ => none)).2 = none := by
  unfold renamePhase
  rcases h : renameOne files0 fo fn (fun _ => none) with ⟨files1, err⟩
  have herr : err = none := by
    have := renameOne_ok files0 fo fn
    rw [h] at this
    exact this
  subst herr
  exact renameOne_ok files1 bo bn

theorem renamePhase_fail (files0 : List String) (fo fn bo bn e : String)
    (hne : ¬ fo = fn) :
    (renamePhase files0 fo fn bo bn (fun _ => some e)).2 = some e := by
  unfold renamePhase
  rcases h : renameOne files0 fo fn (fun _ => some e) with ⟨files1, err⟩
  have herr : err = some e := by
    have := renameOne_fail files0 fo fn e hne
    rw [h] at this
    exact this
  subst herr
  rfl

theorem digitRunsGo_head_of_ne : ∀ (t cur : List Char), ¬ cur = [] →
    (digitRunsGo cur t).head?
      = some (String.mk (cur.reverse ++ t.takeWhile Char.isDigit))
  | [], cur, h => by
      simp [digitRunsGo, h]
  | c :: t, cur, h => by
      by_cases hc : c.isDigit
      · rw [show digitRunsGo cur (c :: t) = digitRunsGo (c :: cur) t by
          simp [digitRunsGo, hc]]
        rw [digitRunsGo_head_of_ne t (c :: cur) (by simp)]
        simp [List.takeWhile_cons, hc]
      · have hcur : cur.isEmpty = false := by
          cases cur
          · exact absurd rfl h
          · rfl
        rw [show digitRunsGo cur (c :: t)
            = String.mk cur.reverse :: digitRunsGo [] t by
          simp [digitRunsGo, hc, hcur]]
        simp [List.takeWhile_cons, hc]

theorem digitRunsGo_nil_head : ∀ (l : List Char),
    (digitRunsGo [] l).head? =
      (if (l.dropWhile (fun c => ¬ c.isDigit)).isEmpty then none
       else some (String.mk
         ((l.dropWhile (fun c => ¬ c.isDigit)).takeWhile Char.isDigit)))
  | [] => by simp [digitRunsGo]
  | c :: l => by
      by_cases hc : c.isDigit
      · rw [show digitRunsGo [] (c :: l) = digitRunsGo [c] l by
          simp [digitRunsGo, hc]]
        rw [digitRunsGo_head_of_ne l [c] (by simp)]
        rw [List.dropWhile_cons_of_neg (by simp [hc])]
        simp [List.takeWhile_cons, hc]
      · rw [show digitRunsGo [] (c :: l) = digitRunsGo [] l by
          simp [digitRunsGo, hc]]
        rw [List.dropWhile_cons_of_pos (by simp [hc])]
        exact digitRunsGo_nil_head l

theorem hasDigit_iff_dropWhile (s : String) :
    hasDigit s = true ↔
      ¬ (s.toList.dropWhile (fun c => ¬ c.isDigit)).isEmpty = true := by
  rw [hasDigit, List.any_eq_true, List.isEmpty_iff, List.dropWhile_eq_nil_iff]
  constructor
  · rintro ⟨c, hc, hd⟩ hall
    have := hall c hc
    simp [hd] at this
  · intro hall
    by_contra hno
    push_neg at hno
    exact hall (fun c hc => by simpa using hno c hc)

theorem extract_number_spec (filename : String) :
    (hasDigit filename = true →
      extract_number_for_directory filename
        = pad3 (strToNat (String.mk (firstDigitRun filename)))) ∧
    (hasDigit filename = false →
      extract_number_for_directory filename = pyStem filename) := by
  have hh := digitRunsGo_nil_head filename.toList
  unfold extract_number_for_directory findallDigits
  cases hl : digitRunsGo [] filename.toList with
  | nil =>
      rw [hl] at hh
      simp only [List.head?] at hh
      constructor
      · intro hd
        rw [hasDigit_iff_dropWhile] at hd
        rw [if_neg (fun hemp => hd hemp)] at hh
        cases hh
      · intro _; rfl
  | cons n rest =>
      rw [hl] at hh
      simp only [List.head?] at hh
      by_cases hemp : (filename.toList.dropWhile (fun c => ¬ c.isDigit)).isEmpty
      · rw [if_pos hemp] at hh; cases hh
      · rw [if_neg hemp] at hh
        constructor
        · intro _
          dsimp only
          rw [Option.some.inj hh]
          rfl
        · intro hd
          exfalso
          have htrue : hasDigit filename = true :=
            (hasDigit_iff_dropWhile filename).mpr hemp
          rw [hd] at htrue
          cases htrue

theorem mem_create_image_pairs : ∀ (images : List String) (d a b : String),
    (d, a, b) ∈ create_image_pairs images → d = extract_number_for_directory a
  | [], d, a, b => by intro h; simp [create_image_pairs] at h
  | [x], d, a, b => by intro h; simp [create_image_pairs] at h
  | a0 :: b0 :: t, d, a, b => by
      intro h
      rw [show create_image_pairs (a0 :: b0 :: t)
          = (extract_number_for_directory a0, a0, b0) :: create_image_pairs t
        from rfl] at h
      rcases List.mem_cons.mp h with h1 | h2
      · have hd : d = extract_number_for_directory a0 := congrArg Prod.fst h1
        have ha : a = a0 := congrArg (fun p => p.2.1) h1
        rw [hd, ha]
      · exact mem_create_image_pairs t d a b h2

/-! ### Claim theorems -/

/-- C1 counterexample: a run whose text extraction script exits with the
nonzero code 1.  The failure is swallowed inside the helper: the run still
appends text_extraction to the completed stages, still enters and
completes generate_table, and the error it eventually records is the
unconditional AttributeError of the save-to-temp-database call, not the
extraction failure.  This contradicts the claim that a failing
text_extraction stage leaves text_extraction out of the completed list and
prevents generate_table from running. -/
theorem C1_counterexample_extraction_failure_not_halting :
    "text_extraction" ∈ (run_processing_pipeline initMeta
        { extraction_outcome := .completed 1 }).1.steps_completed ∧
    "generate_table" ∈ (run_processing_pipeline initMeta
        { extraction_outcome := .completed 1 }).1.steps_completed ∧
    "generate_table" ∈ (run_processing_pipeline initMeta
        { extraction_outcome := .completed 1 }).2.1 ∧
    (run_processing_pipeline initMeta
        { extraction_outcome := .completed 1 }).1.error
      = some attributeErrorMsg := by decide

/-- C1 amended: a failure of the text extraction work (a nonzero exit of
the extraction script or an exception inside the helper) is caught inside
the helper, which always returns normally; the run appends text_extraction
to the completed stages and proceeds into generate_table regardless of the
outcome.  Only an exception escaping a stage statement of the orchestrator
itself halts the remaining stages with status error and the message
recorded, as the scan-formatting stage shows; and every run that gets past
generate_table fails at the save-to-temp-database call with the
AttributeError of the missing method, so such runs end in status error
with that message. -/
theorem C1_amended_extraction_failures_swallowed
    (env : PipelineRunEnv) (e0 : String)
    (h1 : env.save_file = .ok ()) (h2 : env.scan_formatting = .ok ()) :
    (∀ (se : Bool) (oc : SubprocessOutcome) (dir : String),
      run_text_extraction_helper se oc dir = dir) ∧
    (run_processing_pipeline initMeta env).1.steps_completed
      = ["scan_formatting", "classify_rename", "text_extraction",
         "generate_table"] ∧
    "text_extraction" ∈ (run_processing_pipeline initMeta env).1.steps_completed ∧
    "generate_table" ∈ (run_processing_pipeline initMeta env).2.1 ∧
    (run_processing_pipeline initMeta env).1.status = "error" ∧
    (run_processing_pipeline initMeta env).1.error = some attributeErrorMsg ∧
    ((run_processing_pipeline initMeta
        { env with scan_formatting := .error e0 }).1.status = "error" ∧
     (run_processing_pipeline initMeta
        { env with scan_formatting := .error e0 }).1.error = some e0 ∧
     (run_processing_pipeline initMeta
        { env with scan_formatting := .error e0 }).1.steps_completed = [] ∧
     ¬ "generate_table" ∈ (run_processing_pipeline initMeta
        { env with scan_formatting := .error e0 }).2.1) := by
  obtain ⟨f1, f2, f3, f4, f5, f6⟩ := env
  dsimp only at h1 h2
  subst h1; subst h2
  refine ⟨?_, rfl, ?_, ?_, rfl, rfl, rfl, rfl, rfl, ?_⟩
  · intro se oc dir
    unfold run_text_extraction_helper
    split_ifs
    · rfl
    · cases oc <;> rfl
  · show "text_extraction" ∈ ["scan_formatting", "classify_rename",
      "text_extraction", "generate_table"]
    decide
  · show "generate_table" ∈ ["upload", "scan_formatting", "classify_rename",
      "text_extraction", "generate_table", "save_to_temp_database"]
    decide
  · show ¬ "generate_table" ∈ ["upload", "scan_formatting"]
    decide

/-- C1 witness: a concrete run whose extraction subprocess raised, and a
concrete scan-formatting failure. -/
theorem C1_amended_extraction_failures_swallowed_witness :
    (∀ (se : Bool) (oc : SubprocessOutcome) (dir : String),
      run_text_extraction_helper se oc dir = dir) ∧
    (run_processing_pipeline initMeta
        { extraction_outcome := .raised "api down" }).1.steps_completed
      = ["scan_formatting", "classify_rename", "text_extraction",
         "generate_table"] ∧
    "text_extraction" ∈ (run_processing_pipeline initMeta
        { extraction_outcome := .raised "api down" }).1.steps_completed ∧
    "generate_table" ∈ (run_processing_pipeline initMeta
        { extraction_outcome := .raised "api down" }).2.1 ∧
    (run_processing_pipeline initMeta
        { extraction_outcome := .raised "api down" }).1.status = "error" ∧
    (run_processing_pipeline initMeta
        { extraction_outcome := .raised "api down" }).1.error
      = some attributeErrorMsg ∧
    ((run_processing_pipeline initMeta
        { extraction_outcome := .raised "api down"
          scan_formatting := .error "zip broken" }).1.status = "error" ∧
     (run_processing_pipeline initMeta
        { extraction_outcome := .raised "api down"
          scan_formatting := .error "zip broken" }).1.error
       = some "zip broken" ∧
     (run_processing_pipeline initMeta
        { extraction_outcome := .raised "api down"
          scan_formatting := .error "zip broken" }).1.steps_completed = [] ∧
     ¬ "generate_table" ∈ (run_processing_pipeline initMeta
        { extraction_outcome := .raised "api down"
          scan_formatting := .error "zip broken" }).2.1) :=
  C1_amended_extraction_failures_swallowed
    { extraction_outcome := .raised "api down" } "zip broken" rfl rfl

/-- C10: the download operation succeeds only from status review_ready, a
successful download moves the session to status completed, and from that
status every further download attempt fails with the guard message. -/
theorem C10_download_succeeds_at_most_once
    (m : SessionMeta) (zw : Except String Unit) (ts : String)
    (m1 : SessionMeta)
    (h : download_pipeline_results m zw ts = .ok m1) :
    m.status = "review_ready" ∧ m1.status = "completed" ∧
    ∀ (zw1 : Except String Unit) (ts1 : String),
      download_pipeline_results m1 zw1 ts1 =
        .error "Cannot create ZIP - processing not complete or already finalized" := by
  unfold download_pipeline_results create_final_zip at h
  by_cases hs : m.status = "review_ready"
  · rw [if_neg (by simpa using hs)] at h
    cases zw with
    | error e1 => cases h
    | ok _ =>
        have hm1 : m1 = { update_status m "completed" "zip_created" with
            final_zip := some ("processed_results_" ++ ts ++ ".zip") } :=
          (Except.ok.inj h).symm
        refine ⟨hs, by rw [hm1]; rfl, ?_⟩
        intro zw1 ts1
        unfold download_pipeline_results create_final_zip
        rw [if_pos (show ¬ m1.status = "review_ready" by
          rw [hm1]
          show ¬ "completed" = "review_ready"
          decide)]
  · rw [if_pos hs] at h
    cases h

/-- C10 witness: a concrete session in review_ready state. -/
theorem C10_download_succeeds_at_most_once_witness :
    ({ status := "review_ready" } : SessionMeta).status = "review_ready" ∧
    ({ status := "completed"
       current_step := "zip_created"
       final_zip := some "processed_results_20250101.zip" } :
        SessionMeta).status = "completed" ∧
    ∀ (zw1 : Except String Unit) (ts1 : String),
      download_pipeline_results
        { status := "completed"
          current_step := "zip_created"
          final_zip := some "processed_results_20250101.zip" } zw1 ts1 =
        .error "Cannot create ZIP - processing not complete or already finalized" :=
  C10_download_succeeds_at_most_once
    { status := "review_ready" } (.ok ()) "20250101"
    { status := "completed"
      current_step := "zip_created"
      final_zip := some "processed_results_20250101.zip" } rfl

/-- C3: the classifier awards 2 points on brightness, 3 on white-pixel
ratio, 1 on closeness of edge density to the 0.05 target, 1 on histogram
peak position and one half on smaller file size, each to the winning side
of the comparison, and the image with the strictly higher total is labeled
back. -/
theorem C3_classifier_scoring (m1 m2 : Metrics) (f1 f2 : String) :
    (m2.brightness < m1.brightness → brightness_points m1 m2 = (2, 0)) ∧
    (m1.brightness < m2.brightness → brightness_points m1 m2 = (0, 2)) ∧
    (m2.whiteness_ratio < m1.whiteness_ratio →
      whiteness_points m1 m2 = (3, 0)) ∧
    (m1.whiteness_ratio < m2.whiteness_ratio →
      whiteness_points m1 m2 = (0, 3)) ∧
    (|m1.edge_density - optimal_edge_density|
        < |m2.edge_density - optimal_edge_density| →
      edge_points m1 m2 = (1, 0)) ∧
    (|m2.edge_density - optimal_edge_density|
        < |m1.edge_density - optimal_edge_density| →
      edge_points m1 m2 = (0, 1)) ∧
    (m2.hist_peak_position < m1.hist_peak_position →
      peak_points m1 m2 = (1, 0)) ∧
    (m1.hist_peak_position < m2.hist_peak_position →
      peak_points m1 m2 = (0, 1)) ∧
    (m1.file_size_mb < m2.file_size_mb → size_points m1 m2 = (1 / 2, 0)) ∧
    (m2.file_size_mb < m1.file_size_mb → size_points m1 m2 = (0, 1 / 2)) ∧
    ((classify_back_image (some m1) (some m2) f1 f2).1 = true ↔
      (scorePair m1 m2).2 < (scorePair m1 m2).1) ∧
    ((scorePair m1 m2).2 < (scorePair m1 m2).1 →
      back_filename (some m1) (some m2) f1 f2 = f1) ∧
    ((scorePair m1 m2).1 < (scorePair m1 m2).2 →
      back_filename (some m1) (some m2) f1 f2 = f2) := by
  refine ⟨fun h => if_pos h, fun h => if_neg h.not_lt,
    fun h => if_pos h, fun h => if_neg h.not_lt,
    fun h => if_pos h, fun h => if_neg h.not_lt,
    fun h => if_pos h, fun h => if_neg h.not_lt,
    fun h => if_pos h, fun h => if_neg h.not_lt,
    classify_eq_scorePair m1 m2 f1 f2, ?_, ?_⟩
  · intro h
    unfold back_filename
    rw [if_pos ((classify_eq_scorePair m1 m2 f1 f2).mpr h)]
  · intro h
    unfold back_filename
    rw [if_neg (fun hc =>
      ((classify_eq_scorePair m1 m2 f1 f2).mp hc).not_lt h)]

/-- C3 witness: a concrete pair where the first image wins brightness and
whiteness while the second wins the other three comparisons, so the first
image is labeled back with score 5 against 2.5. -/
theorem C3_classifier_scoring_witness :
    brightness_points ⟨10, 1, 0, 0, 0, 0, 5⟩ ⟨5, 0, 5 / 100, 0, 3, 0, 1⟩
        = (2, 0) ∧
    whiteness_points ⟨10, 1, 0, 0, 0, 0, 5⟩ ⟨5, 0, 5 / 100, 0, 3, 0, 1⟩
        = (3, 0) ∧
    edge_points ⟨10, 1, 0, 0, 0, 0, 5⟩ ⟨5, 0, 5 / 100, 0, 3, 0, 1⟩ = (0, 1) ∧
    peak_points ⟨10, 1, 0, 0, 0, 0, 5⟩ ⟨5, 0, 5 / 100, 0, 3, 0, 1⟩ = (0, 1) ∧
    size_points ⟨10, 1, 0, 0, 0, 0, 5⟩ ⟨5, 0, 5 / 100, 0, 3, 0, 1⟩
        = (0, 1 / 2) ∧
    back_filename (some ⟨10, 1, 0, 0, 0, 0, 5⟩)
        (some ⟨5, 0, 5 / 100, 0, 3, 0, 1⟩) "left.jpg" "right.jpg"
        = "left.jpg" := by
  obtain ⟨c1, c2, c3, c4, c5, c6, c7, c8, c9, c10, c11, c12, c13⟩ :=
    C3_classifier_scoring ⟨10, 1, 0, 0, 0, 0, 5⟩
      ⟨5, 0, 5 / 100, 0, 3, 0, 1⟩ "left.jpg" "right.jpg"
  have hb := c1 (by norm_num)
  have hw := c3 (by norm_num)
  have he := c6 (by norm_num [optimal_edge_density])
  have hp := c8 (by norm_num)
  have hsz := c10 (by norm_num)
  have hscore := by
    show (scorePair ⟨10, 1, 0, 0, 0, 0, 5⟩ ⟨5, 0, 5 / 100, 0, 3, 0, 1⟩).2
      < (scorePair ⟨10, 1, 0, 0, 0, 0, 5⟩ ⟨5, 0, 5 / 100, 0, 3, 0, 1⟩).1
    simp only [scorePair, hb, hw, he, hp, hsz]
    norm_num
  exact ⟨hb, hw, he, hp, hsz, c12 hscore⟩

/-- C4 counterexample: two images with identical metrics.  In the original
order the second file is labeled back, after swapping the argument order
the first file of the original pair is labeled back, so the outcome does
depend on argument position and the claim fails. -/
theorem C4_counterexample_tied_metrics_swap :
    back_filename (some ⟨0, 0, 0, 0, 0, 0, 0⟩) (some ⟨0, 0, 0, 0, 0, 0, 0⟩)
        "a.jpg" "b.jpg" = "b.jpg" ∧
    back_filename (some ⟨0, 0, 0, 0, 0, 0, 0⟩) (some ⟨0, 0, 0, 0, 0, 0, 0⟩)
        "b.jpg" "a.jpg" = "a.jpg" ∧
    ¬ ("b.jpg" : String) = "a.jpg" := by
  refine ⟨?_, ?_, by decide⟩ <;>
    norm_num [back_filename, classify_back_image, optimal_edge_density]

/-- C4 amended: the two total scores are never equal (they sum to 7.5 in
half-point steps), so exactly one image is designated back; and when all
five metric comparisons are strict, swapping the argument order labels the
same physical image back.  With a tie in any comparison the tied points go
to the second argument on both calls, which breaks the symmetry. -/
theorem C4_amended_unique_back_and_strict_swap
    (m1 m2 : Metrics) (f1 f2 : String) :
    ¬ (scorePair m1 m2).1 = (scorePair m1 m2).2 ∧
    (StrictMetrics m1 m2 →
      back_filename (some m2) (some m1) f2 f1
        = back_filename (some m1) (some m2) f1 f2) :=
  ⟨scorePair_ne m1 m2, fun h => back_filename_swap m1 m2 f1 f2 h⟩

/-- C4 witness: a strict pair; both orders label the same file back. -/
theorem C4_amended_unique_back_and_strict_swap_witness :
    ¬ (scorePair ⟨1, 1, 5 / 100, 0, 1, 0, 1⟩ ⟨0, 0, 1, 0, 0, 0, 2⟩).1
        = (scorePair ⟨1, 1, 5 / 100, 0, 1, 0, 1⟩ ⟨0, 0, 1, 0, 0, 0, 2⟩).2 ∧
    back_filename (some ⟨0, 0, 1, 0, 0, 0, 2⟩)
        (some ⟨1, 1, 5 / 100, 0, 1, 0, 1⟩) "y.jpg" "x.jpg"
      = back_filename (some ⟨1, 1, 5 / 100, 0, 1, 0, 1⟩)
        (some ⟨0, 0, 1, 0, 0, 0, 2⟩) "x.jpg" "y.jpg" := by
  have h := C4_amended_unique_back_and_strict_swap
    ⟨1, 1, 5 / 100, 0, 1, 0, 1⟩ ⟨0, 0, 1, 0, 0, 0, 2⟩ "x.jpg" "y.jpg"
  refine ⟨h.1, h.2 ⟨by norm_num, by norm_num, ?_, by norm_num, by norm_num⟩⟩
  show ¬ |(5 / 100 : ℚ) - optimal_edge_density|
    = |(1 : ℚ) - optimal_edge_density|
  rw [optimal_edge_density]
  norm_num
  rw [abs_of_nonneg (by norm_num : (0 : ℚ) ≤ 19 / 20)]
  norm_num

/-- C8 counterexample: the note blank contains neither the substring
illegible nor the substring no text, yet the flagging function returns the
no_text flag for it, because blank is one of the fixed absence phrases. -/
theorem C8_counterexample_blank_note :
    extract_issue_flags "blank" = ["no_text"] ∧
    strContains (strLower "blank") "illegible" = false ∧
    strContains (strLower "blank") "no text" = false := by decide

/-- C8 amended: a note containing illegible in any letter case gets the
quality_issue flag, one containing no text gets the no_text flag, and a
note matching none of the fixed quality phrases and none of the fixed
absence phrases gets no flags; notes outside those lists can still be
flagged, so containing neither test substring alone does not imply an
empty flag list. -/
theorem C8_amended_flag_rules (s : String) :
    (strContains (strLower s) "illegible" = true →
      "quality_issue" ∈ extract_issue_flags s) ∧
    (strContains (strLower s) "no text" = true →
      "no_text" ∈ extract_issue_flags s) ∧
    (quality_issues.all (fun p => ! strContains (strLower s) p) = true →
      no_text_issues.all (fun p => ! strContains (strLower s) p) = true →
      extract_issue_flags s = []) := by
  by_cases hs : s = ""
  · subst hs
    exact ⟨fun h => absurd h (by decide), fun h => absurd h (by decide),
      fun _ _ => rfl⟩
  · unfold extract_issue_flags
    rw [if_neg hs]
    refine ⟨?_, ?_, ?_⟩
    · intro h
      have hq : quality_issues.any (fun p => strContains (strLower s) p)
          = true :=
        List.any_eq_true.mpr ⟨"illegible", by decide, h⟩
      rw [if_pos hq]
      exact List.mem_append_left _ (by simp)
    · intro h
      have hn : no_text_issues.any (fun p => strContains (strLower s) p)
          = true :=
        List.any_eq_true.mpr ⟨"no text", by decide, h⟩
      rw [if_pos hn]
      exact List.mem_append_right _ (by simp)
    · intro hq hn
      have hq1 : ¬ quality_issues.any (fun p => strContains (strLower s) p)
          = true := by
        rw [List.any_eq_true]
        rintro ⟨p, hp, hc⟩
        have := List.all_eq_true.mp hq p hp
        rw [hc] at this
        cases this
      have hn1 : ¬ no_text_issues.any (fun p => strContains (strLower s) p)
          = true := by
        rw [List.any_eq_true]
        rintro ⟨p, hp, hc⟩
        have := List.all_eq_true.mp hn p hp
        rw [hc] at this
        cases this
      rw [if_neg hq1, if_neg hn1]
      rfl

/-- C8 witness: concrete notes for each amended conjunct. -/
theorem C8_amended_flag_rules_witness :
    "quality_issue" ∈ extract_issue_flags "Partly ILLEGIBLE ink" ∧
    "no_text" ∈ extract_issue_flags "there is no text" ∧
    extract_issue_flags "all fine" = [] :=
  ⟨(C8_amended_flag_rules "Partly ILLEGIBLE ink").1 (by decide),
   (C8_amended_flag_rules "there is no text").2.1 (by decide),
   (C8_amended_flag_rules "all fine").2.2 (by decide) (by decide)⟩

/-- C9: every pair directory is named by applying the numbering function to
the first image of the pair; a filename containing a digit yields the first
digit run as a decimal value zero padded to width three, one without digits
yields the raw stem, and scan_007.jpg yields 007. -/
theorem C9_directory_naming :
    (∀ (images : List String) (d a b : String),
      (d, a, b) ∈ create_image_pairs images →
        d = extract_number_for_directory a) ∧
    (∀ filename : String, hasDigit filename = true →
      extract_number_for_directory filename
        = pad3 (strToNat (String.mk (firstDigitRun filename)))) ∧
    (∀ filename : String, hasDigit filename = false →
      extract_number_for_directory filename = pyStem filename) ∧
    extract_number_for_directory "scan_007.jpg" = "007" :=
  ⟨mem_create_image_pairs, fun f h => (extract_number_spec f).1 h,
    fun f h => (extract_number_spec f).2 h, by decide⟩

/-- C9 witness: a concrete pair list and both fallback directions. -/
theorem C9_directory_naming_witness :
    "007" = extract_number_for_directory "scan_007.jpg" ∧
    extract_number_for_directory "scan_007.jpg"
      = pad3 (strToNat (String.mk (firstDigitRun "scan_007.jpg"))) ∧
    extract_number_for_directory "photo.jpg" = pyStem "photo.jpg" :=
  ⟨C9_directory_naming.1 ["scan_007.jpg", "scan_008.jpg"] "007"
      "scan_007.jpg" "scan_008.jpg" (by decide),
   C9_directory_naming.2.1 "scan_007.jpg" (by decide),
   C9_directory_naming.2.2.1 "photo.jpg" (by decide)⟩

/-- C5 counterexample: a unit whose image analysis fails for both images is
not skipped: process_directory reports success, marks the unit renamed, and
rewrites both file names, guessing the alphabetically later image as back.
Only the reasoning string mentions the failed analysis. -/
theorem C5_counterexample_failed_metrics_still_renamed :
    (process_directory ⟨"010", ["010.jpg", "011.jpg"]⟩ (fun _ => none)
        (fun _ => none) false).1.status = "success" ∧
    (process_directory ⟨"010", ["010.jpg", "011.jpg"]⟩ (fun _ => none)
        (fun _ => none) false).1.reasoning
      = "Could not analyze one or both images" ∧
    (process_directory ⟨"010", ["010.jpg", "011.jpg"]⟩ (fun _ => none)
        (fun _ => none) false).1.renamed = some true ∧
    (process_directory ⟨"010", ["010.jpg", "011.jpg"]⟩ (fun _ => none)
        (fun _ => none) false).2 = ["010A.jpg", "011B.jpg"] := by decide

/-- C5 amended: when analysis fails for either image of a two-image unit,
classify_back_image reports the failure only inside the reasoning string
and answers that the first image is not the back; process_directory then
treats the second sorted image as back and the first as front, proceeds to
rename both files, and (when the renames raise no OS error) reports the
unit as a success rather than skipping it; the batch loop then counts it
as successful. -/
theorem C5_amended_failed_metrics_unit_not_skipped
    (d : UnitDir) (analyze : String → Option Metrics)
    (osError : FsOp → Option String) (i1 i2 : String)
    (himg : sortedImages d = [i1, i2])
    (hfail : analyze i1 = none ∨ analyze i2 = none) :
    ((process_directory d analyze osError false).1.reasoning
        = "Could not analyze one or both images" ∧
     (process_directory d analyze osError false).1.back_original = i2 ∧
     (process_directory d analyze osError false).1.front_original = i1) ∧
    (osError = (fun _ => none) →
      (process_directory d analyze osError false).1.status = "success" ∧
      (process_directory d analyze osError false).1.renamed = some true) := by
  have hcls : classify_back_image (analyze i1) (analyze i2) i1 i2
      = (false, "Could not analyze one or both images") := by
    rcases hfail with hf | hf
    · rw [hf]; cases analyze i2 <;> rfl
    · rw [hf]; cases analyze i1 <;> rfl
  unfold process_directory
  rw [himg]
  dsimp only
  rw [hcls]
  simp only [Bool.false_eq_true, if_false]
  constructor
  · rcases hr : renamePhase d.files i1
        (rstripAB (pyStem i1) ++ "A" ++ pySuffix i1) i2
        (rstripAB (pyStem i2) ++ "B" ++ pySuffix i2) osError with ⟨files1, err⟩
    cases err <;> exact ⟨rfl, rfl, rfl⟩
  · intro hos
    subst hos
    rcases hr : renamePhase d.files i1
        (rstripAB (pyStem i1) ++ "A" ++ pySuffix i1) i2
        (rstripAB (pyStem i2) ++ "B" ++ pySuffix i2)
        (fun _ => none) with ⟨files1, err⟩
    have herr : err = none := by
      have hok := renamePhase_ok d.files i1
        (rstripAB (pyStem i1) ++ "A" ++ pySuffix i1) i2
        (rstripAB (pyStem i2) ++ "B" ++ pySuffix i2)
      rw [hr] at hok
      exact hok
    subst herr
    exact ⟨rfl, rfl⟩

/-- C5 witness: a concrete unit with failing analysis, renamed and
reported successful. -/
theorem C5_amended_failed_metrics_unit_not_skipped_witness :
    ((process_directory ⟨"020", ["020.jpg", "021.jpg"]⟩ (fun _ => none)
        (fun _ => none) false).1.reasoning
        = "Could not analyze one or both images" ∧
     (process_directory ⟨"020", ["020.jpg", "021.jpg"]⟩ (fun _ => none)
        (fun _ => none) false).1.back_original = "021.jpg" ∧
     (process_directory ⟨"020", ["020.jpg", "021.jpg"]⟩ (fun _ => none)
        (fun _ => none) false).1.front_original = "020.jpg") ∧
    ((fun (_ : FsOp) => (none : Option String)) = (fun _ => none) →
      (process_directory ⟨"020", ["020.jpg", "021.jpg"]⟩ (fun _ => none)
        (fun _ => none) false).1.status = "success" ∧
      (process_directory ⟨"020", ["020.jpg", "021.jpg"]⟩ (fun _ => none)
        (fun _ => none) false).1.renamed = some true) :=
  C5_amended_failed_metrics_unit_not_skipped
    ⟨"020", ["020.jpg", "021.jpg"]⟩ (fun _ => none) (fun _ => none)
    "020.jpg" "021.jpg" (by decide) (Or.inl rfl)

/-- C6 counterexample: for a reply without a JSON object the fallback
record leaves the other markings list empty and carries the raw reply in a
separate raw_extraction metadata slot, so the raw text is not in the other
markings slot as claimed. -/
theorem C6_counterexample_raw_text_not_in_other_markings :
    (parse_reply_content "no json here" (fun _ => none)).metadata.other_markings
      = [] ∧
    (parse_reply_content "no json here" (fun _ => none)).metadata.raw_extraction
      = some "no json here" ∧
    (parse_reply_content "no json here" (fun _ => none)).id_number
      = "not_found" ∧
    (parse_reply_content "no json here" (fun _ => none)).extraction_notes
      = "Could not parse as structured JSON, raw text included" := by decide

/-- C6 amended: a missing or unparseable JSON object yields a fallback
record (no hard error) whose raw_extraction metadata slot carries the raw
reply, whose other markings list is empty, and whose note states that
parsing failed; a recognition-service failure however produces an error
outcome, the unit is recorded as failed and no document is written for the
table stage. -/
theorem C6_amended_fallback_and_service_failures
    (content : String) (jsonParse : String → Option ParsedData)
    (image_path dn now e : String) :
    ((pyFind content '{' = -1 ∨
      ¬ pyRfind content '}' + 1 > pyFind content '{' ∨
      jsonParse (pySlice content (pyFind content '{')
        (pyRfind content '}' + 1)) = none) →
      ((parse_reply_content content jsonParse).metadata.raw_extraction
          = some content ∧
       (parse_reply_content content jsonParse).metadata.other_markings = [] ∧
       ((parse_reply_content content jsonParse).id_number = "not_found" ∨
        (parse_reply_content content jsonParse).id_number = "parsing_error") ∧
       ((parse_reply_content content jsonParse).extraction_notes
          = "Could not parse as structured JSON, raw text included" ∨
        (parse_reply_content content jsonParse).extraction_notes
          = "JSON parsing failed, raw extraction included"))) ∧
    (extract_text_from_image (.error e) jsonParse image_path dn now
      = .err e image_path dn now) ∧
    (∀ saveFail : Option String,
      process_one_back_image image_path dn (.error e) jsonParse saveFail now
        = ({ status := "failed", error := some e }, none)) := by
  refine ⟨?_, rfl, fun saveFail => rfl⟩
  intro hbad
  unfold parse_reply_content
  rcases hbad with h | h | h
  · rw [if_neg (fun hc => hc.1 h)]
    exact ⟨rfl, rfl, Or.inl rfl, Or.inl rfl⟩
  · rw [if_neg (fun hc => h hc.2)]
    exact ⟨rfl, rfl, Or.inl rfl, Or.inl rfl⟩
  · by_cases hc : pyFind content '{' ≠ -1 ∧
        pyRfind content '}' + 1 > pyFind content '{'
    · rw [if_pos hc, h]
      exact ⟨rfl, rfl, Or.inr rfl, Or.inr rfl⟩
    · rw [if_neg hc]
      exact ⟨rfl, rfl, Or.inl rfl, Or.inl rfl⟩

/-- C6 witness: a braceless reply and a failing service call. -/
theorem C6_amended_fallback_and_service_failures_witness :
    (parse_reply_content "xyz" (fun _ => none)).metadata.raw_extraction
      = some "xyz" ∧
    extract_text_from_image (.error "api down") (fun _ => none)
        "img.jpg" "001" "t0" = .err "api down" "img.jpg" "001" "t0" ∧
    process_one_back_image "img.jpg" "001" (.error "api down")
        (fun _ => none) none "t0"
      = ({ status := "failed", error := some "api down" }, none) := by
  have h := C6_amended_fallback_and_service_failures "xyz" (fun _ => none)
    "img.jpg" "001" "t0" "api down"
  exact ⟨(h.1 (Or.inl (by decide))).1, h.2.1, h.2.2 none⟩

/-- C7 counterexample: a unit in which the computed front target name
collides with the existing back image file.  The existing file is silently
unlinked, both renames go through, the unit reports success with no
message, and one of the two images is lost: the collision is not reported
as a failure. -/
theorem C7_counterexample_existing_target_silently_replaced :
    (process_directory ⟨"005", ["005.jpg", "005A.jpg"]⟩ (fun _ => none)
        (fun _ => none) false).1.status = "success" ∧
    (process_directory ⟨"005", ["005.jpg", "005A.jpg"]⟩ (fun _ => none)
        (fun _ => none) false).1.message = none ∧
    (process_directory ⟨"005", ["005.jpg", "005A.jpg"]⟩ (fun _ => none)
        (fun _ => none) false).2 = ["005B.jpg"] := by decide

/-- C7 amended: an OS failure raised while renaming a unit is reported in
that unit result as an error status with the exception message, and the
batch still produces one result per processable unit and reports overall
success; but a pre-existing file under the target name is not a failure
case: it is silently deleted and the rename proceeds. -/
theorem C7_amended_rename_failures_reported
    (dirs : List UnitDir) (analyze : String → String → Option Metrics)
    (osError : String → FsOp → Option String) (dry_run : Bool)
    (hne : ¬ (dirs.filter (fun d => (unitImages d).length = 2)) = []) :
    ((process_all_directories dirs analyze osError dry_run).status
        = "success" ∧
     (process_all_directories dirs analyze osError dry_run).results.length
        = (dirs.filter (fun d => (unitImages d).length = 2)).length ∧
     (process_all_directories dirs analyze osError dry_run).successful
        + (process_all_directories dirs analyze osError dry_run).failed
        = (dirs.filter (fun d => (unitImages d).length = 2)).length) ∧
    (∀ (d : UnitDir) (an : String → Option Metrics) (e i1 i2 : String),
      sortedImages d = [i1, i2] →
      ¬ (process_directory d an (fun _ => some e) false).1.front_new
        = (process_directory d an (fun _ => some e) false).1.front_original →
      (process_directory d an (fun _ => some e) false).1.status = "error" ∧
      (process_directory d an (fun _ => some e) false).1.message
        = some ("Failed to rename files: " ++ e)) := by
  constructor
  · unfold process_all_directories
    rw [if_neg (by simpa [List.isEmpty_iff] using hne)]
    dsimp only
    refine ⟨rfl, by simp [List.length_insertionSort], ?_⟩
    set res := ((dirs.filter (fun d => (unitImages d).length = 2)).insertionSort
      (fun a b => pyStrLt b.name a.name = false)).map
      (fun d => (process_directory d (analyze d.name) (osError d.name)
        dry_run).1) with hres
    have hsplit := List.length_eq_countP_add_countP
      (fun r : DirResult => decide (r.status = "success")) res
    have hcongr : res.countP (fun r => decide (¬ r.status = "success"))
        = res.countP
          (fun a => decide (¬ decide (a.status = "success") = true)) :=
      List.countP_congr (fun x _ => by simp)
    rw [hcongr, ← hsplit, hres]
    simp [List.length_insertionSort]
  · intro d an e i1 i2 himg hdiff
    unfold process_directory at hdiff ⊢
    rw [himg] at hdiff ⊢
    dsimp only at hdiff ⊢
    rcases hcls : classify_back_image (an i1) (an i2) i1 i2 with ⟨ifb, reas⟩
    rw [hcls] at hdiff
    dsimp only at hdiff ⊢
    cases ifb <;>
      simp only [Bool.false_eq_true, eq_self_iff_true, if_false, if_true]
        at hdiff ⊢
    · rcases hr : renamePhase d.files i1
          (rstripAB (pyStem i1) ++ "A" ++ pySuffix i1) i2
          (rstripAB (pyStem i2) ++ "B" ++ pySuffix i2)
          (fun _ => some e) with ⟨files1, err⟩
      rw [hr] at hdiff
      cases err with
      | none =>
          dsimp only at hdiff
          have hfail2 := renamePhase_fail d.files i1
            (rstripAB (pyStem i1) ++ "A" ++ pySuffix i1) i2
            (rstripAB (pyStem i2) ++ "B" ++ pySuffix i2) e
            (fun hq => hdiff hq.symm)
          rw [hr] at hfail2
          cases hfail2
      | some e1 =>
          dsimp only at hdiff
          have hfail2 := renamePhase_fail d.files i1
            (rstripAB (pyStem i1) ++ "A" ++ pySuffix i1) i2
            (rstripAB (pyStem i2) ++ "B" ++ pySuffix i2) e
            (fun hq => hdiff hq.symm)
          rw [hr] at hfail2
          have he1 : e1 = e := Option.some.inj hfail2
          subst he1
          exact ⟨rfl, rfl⟩
    · rcases hr : renamePhase d.files i2
          (rstripAB (pyStem i2) ++ "A" ++ pySuffix i2) i1
          (rstripAB (pyStem i1) ++ "B" ++ pySuffix i1)
          (fun _ => some e) with ⟨files1, err⟩
      rw [hr] at hdiff
      cases err with
      | none =>
          dsimp only at hdiff
          have hfail2 := renamePhase_fail d.files i2
            (rstripAB (pyStem i2) ++ "A" ++ pySuffix i2) i1
            (rstripAB (pyStem i1) ++ "B" ++ pySuffix i1) e
            (fun hq => hdiff hq.symm)
          rw [hr] at hfail2
          cases hfail2
      | some e1 =>
          dsimp only at hdiff
          have hfail2 := renamePhase_fail d.files i2
            (rstripAB (pyStem i2) ++ "A" ++ pySuffix i2) i1
            (rstripAB (pyStem i1) ++ "B" ++ pySuffix i1) e
            (fun hq => hdiff hq.symm)
          rw [hr] at hfail2
          have he1 : e1 = e := Option.some.inj hfail2
          subst he1
          exact ⟨rfl, rfl⟩

/-- C7 witness: a failing OS oracle on a concrete unit, and a concrete
batch of one unit that still completes. -/
theorem C7_amended_rename_failures_reported_witness :
    ((process_all_directories [⟨"005", ["005.jpg", "006.jpg"]⟩]
        (fun _ _ => none) (fun _ _ => some "disk full") false).status
        = "success" ∧
     (process_all_directories [⟨"005", ["005.jpg", "006.jpg"]⟩]
        (fun _ _ => none) (fun _ _ => some "disk full") false).results.length
        = (List.filter (fun d => (unitImages d).length = 2)
            ([⟨"005", ["005.jpg", "006.jpg"]⟩] : List UnitDir)).length ∧
     (process_all_directories [⟨"005", ["005.jpg", "006.jpg"]⟩]
        (fun _ _ => none) (fun _ _ => some "disk full") false).successful
        + (process_all_directories [⟨"005", ["005.jpg", "006.jpg"]⟩]
            (fun _ _ => none) (fun _ _ => some "disk full") false).failed
        = (List.filter (fun d => (unitImages d).length = 2)
            ([⟨"005", ["005.jpg", "006.jpg"]⟩] : List UnitDir)).length) ∧
    ((process_directory ⟨"007", ["007.jpg", "008.jpg"]⟩ (fun _ => none)
        (fun _ => some "disk full") false).1.status = "error" ∧
     (process_directory ⟨"007", ["007.jpg", "008.jpg"]⟩ (fun _ => none)
        (fun _ => some "disk full") false).1.message
        = some ("Failed to rename files: " ++ "disk full")) := by
  have h := C7_amended_rename_failures_reported
    [⟨"005", ["005.jpg", "006.jpg"]⟩] (fun _ _ => none)
    (fun _ _ => some "disk full") false (by decide)
  exact ⟨h.1, h.2 ⟨"007", ["007.jpg", "008.jpg"]⟩ (fun _ => none)
    "disk full" "007.jpg" "008.jpg" (by decide) (by decide)⟩

/-- C2: in every generated table a row carries the duplicate_id flag
exactly when its stripped identifier is valid (non-empty and not a
sentinel) and occurs as the stripped identifier of at least two rows; and
the identifiers A12, A12, B7 across three units flag exactly the first two
rows with a duplicates statistic of two. -/
theorem C2_duplicate_flag_iff :
    (∀ (items : List (String × Except String UnitDoc)) (i : Nat)
        (h : i < (generate_data_table items).1.length),
      "duplicate_id" ∈ ((generate_data_table items).1.get ⟨i, h⟩).flags ↔
        (isValidId (pyStrip (((generate_data_table items).1.get
            ⟨i, h⟩).id_number)) = true ∧
         2 ≤ (generate_data_table items).1.countP
           (fun r => decide (pyStrip r.id_number
             = pyStrip (((generate_data_table items).1.get
                ⟨i, h⟩).id_number))))) ∧
    ((generate_data_table
        [("001", Except.ok { id_number := some "A12" }),
         ("002", Except.ok { id_number := some "A12" }),
         ("003", Except.ok { id_number := some "B7" })]).1.map Row.flags
      = [["duplicate_id"], ["duplicate_id"], []] ∧
     (generate_data_table
        [("001", Except.ok { id_number := some "A12" }),
         ("002", Except.ok { id_number := some "A12" }),
         ("003", Except.ok { id_number := some "B7" })]).2.duplicates = 2) := by
  constructor
  · intro items i h
    have hlen : i < (baseRows items).length := by
      rw [← length_finalRows items]
      exact h
    have hget := finalRows_get items i h
    have hbase := dup_not_mem_baseRow items i hlen
    show "duplicate_id" ∈ ((finalRows items).get ⟨i, h⟩).flags ↔
      (isValidId (pyStrip (((finalRows items).get ⟨i, h⟩).id_number))
          = true ∧
       2 ≤ (finalRows items).countP
         (fun r => decide (pyStrip r.id_number
           = pyStrip (((finalRows items).get ⟨i, h⟩).id_number))))
    by_cases hd : i ∈ dupIndices (baseRows items)
    · rw [hget, if_pos hd]
      have hmem : "duplicate_id"
          ∈ (addDupFlag ((baseRows items).get ⟨i, hlen⟩)).flags := by
        unfold addDupFlag
        rw [if_neg hbase]
        simp
      obtain ⟨row, hrow, hval, hcnt⟩ := (mem_dupIndices_iff _ i).mp hd
      have hroweq : row = (baseRows items).get ⟨i, hlen⟩ := by
        obtain ⟨h2, hr2⟩ := List.getElem?_eq_some.mp hrow
        rw [← hr2]
        simp [List.get_eq_getElem]
      rw [hroweq] at hval hcnt
      constructor
      · intro _
        rw [addDupFlag_id, countP_finalRows_id items]
        exact ⟨hval, hcnt⟩
      · intro _
        exact hmem
    · rw [hget, if_neg hd]
      constructor
      · intro hmem
        exact absurd hmem hbase
      · rintro ⟨hval, hcnt⟩
        exfalso
        apply hd
        apply (mem_dupIndices_iff _ i).mpr
        rw [countP_finalRows_id items] at hcnt
        refine ⟨(baseRows items).get ⟨i, hlen⟩, ?_, hval, hcnt⟩
        rw [List.getElem?_eq_some]
        exact ⟨hlen, by simp [List.get_eq_getElem]⟩
  · constructor <;> decide

/-- C2 witness: the first row of the concrete example is flagged via the
equivalence. -/
theorem C2_duplicate_flag_iff_witness :
    "duplicate_id" ∈ (((generate_data_table
        [("001", Except.ok { id_number := some "A12" }),
         ("002", Except.ok { id_number := some "A12" }),
         ("003", Except.ok { id_number := some "B7" })]).1.get
      ⟨0, by decide⟩).flags) :=
  (C2_duplicate_flag_iff.1
      [("001", Except.ok { id_number := some "A12" }),
       ("002", Except.ok { id_number := some "A12" }),
       ("003", Except.ok { id_number := some "B7" })] 0 (by decide)).mpr
    ⟨by decide, by decide⟩

end SDProj
